import Mathlib

/-!
Shallow embedding of the RubiTrail mini-app front end (repository
rubi_trail_hakathon).  The repository holds several near-duplicate
revisions of one browser script; the claims cite four of them:

* src/frontend/script.js            — namespace ScriptJs
* src/unnamed/part_000, revision A  — namespace Part000A (lines 1..257)
* src/unnamed/part_000, revision B  — namespace Part000B (lines 258..773)
* src/unnamed/part_000, revision C  — namespace Part000C (lines 774..1070)
* src/unnamed/part_001              — namespace Part001
* src/unnamed/part_002              — namespace Part002

Each handler is embedded as a pure function from the client state, its
inputs and the outcome of the backend calls it performs to the new state
plus a trace of observable effects (HTTP requests, alerts, DOM balance
writes, camera operations, storage writes).  Asynchronous helpers called
from a handler (startCamera, the redeemCode call in the bootstrap guard,
the recursive scan loop) are recorded as invocation effects; synchronous
helpers (stopCamera, the balance writers) are inlined as the runtime
inlines them.  The loading-overlay class toggles are kept as effects
only.  JS value quirks that the code relies on are modelled explicitly:
string/boolean truthiness, String(undefined) = "undefined", template
interpolation of undefined, and JSON bodies whose fields may be absent.
-/

/-- JS truthiness of a possibly-undefined string: null/undefined and the
empty string are falsy. -/
def strTruthy : Option String → Bool
  | none => false
  | some s => s != ""

/-- JS truthiness of a possibly-undefined boolean JSON field. -/
def boolTruthy : Option Bool → Bool
  | none => false
  | some b => b

/-- JS expression a || d for an optional string a with fallback d. -/
def jsOrStr (a : Option String) (d : String) : String :=
  match a with
  | some s => if s == "" then d else s
  | none => d

/-- JS template interpolation of a possibly-undefined number. -/
def jsShowInt : Option Int → String
  | none => "undefined"
  | some n => toString n

/-- JS template interpolation of a possibly-undefined string. -/
def jsShowStr : Option String → String
  | none => "undefined"
  | some s => s

/-- JS String(x) applied to a possibly-undefined string value. -/
def jsString : Option String → String := jsShowStr

/-- ASCII apostrophe built by code point, used to reproduce alert texts
from the source verbatim. -/
def apos : String := String.singleton (Char.ofNat 39)

/-- Drop leading whitespace characters from a character list. -/
def dropLeadingWs : List Char → List Char
  | [] => []
  | c :: cs => if c.isWhitespace then dropLeadingWs cs else c :: cs

/-- JS String.prototype.trim, as structural recursion over the
character list (so that proofs can evaluate it): whitespace is removed
from both ends. -/
def jsTrim (s : String) : String :=
  String.mk ((dropLeadingWs (dropLeadingWs s.data).reverse).reverse)

/-- The `user` object of a successful auth response body. -/
structure UserInfo where
  coins : Option Int := none
deriving DecidableEq, Repr

/-- The `voucher` object of a purchase/scan response body. -/
structure VoucherInfo where
  redeemUrl : Option String := none
deriving DecidableEq, Repr

/-- The `attraction` object of a scan response body. -/
structure AttractionInfo where
  name : Option String := none
  title : Option String := none
  description : Option String := none
deriving DecidableEq, Repr

/-- A parsed JSON response body; every field the scripts read, each
possibly absent. -/
structure RespBody where
  success : Option Bool := none
  message : Option String := none
  error : Option String := none
  token : Option String := none
  addedCoins : Option Int := none
  newBalance : Option Int := none
  user : Option UserInfo := none
  voucher : Option VoucherInfo := none
  attraction : Option AttractionInfo := none
deriving DecidableEq, Repr

/-- A JSON request body; every field any script ever sends. -/
structure ReqBody where
  code : Option String := none
  qrText : Option String := none
  source : Option String := none
  initData : Option String := none
  telegram_id : Option String := none
  name : Option String := none
deriving DecidableEq, Repr

/-- Outcome of one fetch call as the scripts observe it: either the
promise rejects (network error), or a response arrives with its ok flag,
HTTP status, raw body text, and — when the body parses as JSON — the
parsed body. -/
inductive FetchResult where
  | netError : FetchResult
  | reply : Bool → Nat → String → Option RespBody → FetchResult
deriving DecidableEq, Repr

/-- A media stream, identified by the ids of its tracks
(MediaStream.getTracks in the source). -/
structure MediaStream where
  tracks : List Nat
deriving DecidableEq, Repr

/-- Observable effects of a handler run, in program order. -/
inductive Effect where
  | showLoading : Effect
  | hideLoading : Effect
  | httpPost : String → ReqBody → Effect
  | alert : String → Effect
  | setBalance : Option Int → Effect
  | startCam : Effect
  | stopTrack : Nat → Effect
  | raf : Effect
  | initMap : Effect
  | setLocalItem : String → String → Effect
  | setSessionItem : String → String → Effect
  | openLink : String → Effect
  | redeemCall : String → String → Effect
  | handleQR : String → Effect
deriving DecidableEq, Repr

/-- Client state: the in-memory authToken, the .coin-balance element
(outer none: element absent; inner Option Int: the displayed value, none
rendering as a non-numeric text such as "undefined"), the scanning flag,
the held camera stream, the camera-stream video element and its
srcObject, the localStorage web_user_id entry, and the active view
section. -/
structure St where
  authToken : Option String := none
  coinBalance : Option (Option Int) := none
  scanning : Bool := false
  localStream : Option MediaStream := none
  videoElem : Option (Option MediaStream) := none
  webUserId : Option String := none
  activeView : Option String := none
deriving DecidableEq, Repr

/-- The Telegram WebApp user object (initDataUnsafe.user). -/
structure TgUser where
  id : Option Nat := none
  first_name : Option String := none
  last_name : Option String := none
  username : Option String := none
deriving DecidableEq, Repr

/-- The Telegram WebApp context (window.Telegram.WebApp). -/
structure Tg where
  initData : String := ""
  user : Option TgUser := none
  start_param : Option String := none
deriving DecidableEq, Repr

/-- JS truthiness of user?.id on an optional Telegram user. -/
def idTruthy : Option TgUser → Bool
  | none => false
  | some u =>
    match u.id with
    | none => false
    | some n => n != 0

/-- Backend base URL (API_BASE in every revision). -/
def API_BASE : String := "https://rubi-trail-hakathon.onrender.com"

/-- The identity-exchange endpoint. -/
def authUrl : String := API_BASE ++ "/auth/telegram"

/-- The redemption endpoint. -/
def scanUrl : String := API_BASE ++ "/api/attractions/scan"

/-- The per-reward purchase endpoint. -/
def buyUrl (rewardId : String) : String :=
  API_BASE ++ "/api/rewards/" ++ rewardId ++ "/buy"

/-- Write the .coin-balance element when it exists (the common
`if (balanceElement) balanceElement.innerHTML = ...` pattern). -/
def writeBalance (st : St) (v : Option Int) : St × List Effect :=
  match st.coinBalance with
  | some _ => ({ st with coinBalance := some v }, [Effect.setBalance v])
  | none => (st, [])

namespace ScriptJs

/-- Alert text of src/frontend/script.js lines 41-44. -/
def noLoginAlert : String :=
  "Telegram didn" ++ apos ++ "t provide login data.\n\nOpen using the bot" ++
    apos ++ "s " ++ apos ++ "Open RubiTrail" ++ apos ++
    " button (Mini App), not a normal link."

/-- src/frontend/script.js lines 116-123 (identical in part_000 and
part_001): clear the scanning flag; when a stream is held, stop each of
its tracks, null the video element srcObject, and drop the stream
reference. -/
def stopCamera (st : St) : St × List Effect :=
  let st1 : St := { st with scanning := false }
  match st1.localStream with
  | some str =>
      ({ st1 with
          localStream := none,
          videoElem := st1.videoElem.map (fun _ => none) },
        str.tracks.map Effect.stopTrack)
  | none => (st1, [])

/-- Join of a user name from first_name and last_name, dropping falsy
parts (src/frontend/script.js line 51). -/
def joinName (u : TgUser) : String :=
  String.intercalate " "
    ((([u.first_name, u.last_name].filterMap id)).filter (fun s => s != ""))

/-- src/frontend/script.js lines 27-78: bootstrap.  Requires a Telegram
initData payload and a user id; otherwise alerts and returns without any
network call.  On exchange failure the token is left unchanged and an
error is alerted; on success the token and displayed balance are set
from the response. -/
def initAuth (st : St) (tg : Option Tg) (fr : FetchResult) : St × List Effect :=
  let dataStr : String := (tg.map Tg.initData).getD ""
  let user : Option TgUser := tg.bind Tg.user
  if dataStr == "" || !(idTruthy user) then
    (st, [Effect.alert noLoginAlert])
  else
    match user with
    | none => (st, [Effect.alert noLoginAlert])
    | some u =>
      let req : List Effect :=
        [Effect.httpPost authUrl
          { initData := some dataStr,
            telegram_id := some (toString (u.id.getD 0)),
            name := some (joinName u) }]
      match fr with
      | FetchResult.netError =>
          (st, req ++ [Effect.alert "Could not connect to backend (auth)."])
      | FetchResult.reply _ _ _ none =>
          (st, req ++ [Effect.alert "Could not connect to backend (auth)."])
      | FetchResult.reply ok _ _ (some data) =>
          if !ok then
            (st, req ++ [Effect.alert
              (jsOrStr data.error "Telegram auth failed. Check backend logs.")])
          else
            let st1 : St := { st with authToken := data.token }
            match data.user with
            | some usr =>
                let r := writeBalance st1 usr.coins
                (r.1, req ++ r.2)
            | none => (st1, req)

/-- src/frontend/script.js lines 125-164: the scan handler.  Trims the
decoded text, drops empty payloads, requires the token, posts the
trimmed payload to the redemption endpoint and handles the three
outcomes; every failure alerts and restarts the camera, success writes
newBalance verbatim, alerts and restarts the camera. -/
def handleQRCode (st : St) (decodedText : Option String) (fr : FetchResult) :
    St × List Effect :=
  let payload : String := jsTrim (decodedText.getD "")
  if payload == "" then (st, [])
  else if !(strTruthy st.authToken) then
    (st, [Effect.alert "Not authenticated yet. Open the app as a Telegram Mini App."])
  else
    let req : List Effect :=
      [Effect.showLoading, Effect.httpPost scanUrl { code := some payload }]
    match fr with
    | FetchResult.netError =>
        (st, req ++ [Effect.hideLoading,
          Effect.alert "Network error talking to backend when scanning QR.",
          Effect.startCam])
    | FetchResult.reply _ _ _ none =>
        (st, req ++ [Effect.hideLoading,
          Effect.alert "Network error talking to backend when scanning QR.",
          Effect.startCam])
    | FetchResult.reply ok _ _ (some data) =>
        if !ok || !(boolTruthy data.success) then
          (st, req ++ [Effect.hideLoading,
            Effect.alert ("❌ " ++ jsOrStr data.message (jsOrStr data.error "Scan failed")),
            Effect.startCam])
        else
          let r := writeBalance st data.newBalance
          (r.1, req ++ [Effect.hideLoading] ++ r.2 ++
            [Effect.alert ("✅ Scan accepted!\n+" ++ jsShowInt data.addedCoins ++ " coins"),
             Effect.startCam])

/-- src/frontend/script.js lines 196-218: activate the view section with
the given id, start the camera on the scan tab and stop it otherwise,
and initialise/resize the map on the map tab. -/
def setActiveTab (viewId : String) (st : St) : St × List Effect :=
  let st1 : St := { st with activeView := some viewId }
  if viewId == "scan-view" then
    (st1, [Effect.startCam])
  else
    let r := stopCamera st1
    (r.1, r.2 ++ (if viewId == "map-view" then [Effect.initMap] else []))

/-- src/frontend/script.js lines 166-190: one step of the scan loop.
With the scanning flag clear it returns without rescheduling; with a
ready frame whose decode yields text with non-empty trim it clears the
flag, releases the camera and hands the raw decoded text to the scan
handler; otherwise it reschedules itself. -/
def scanLoopStep (st : St) (ready : Bool) (w h : Nat) (code : Option String) :
    St × List Effect :=
  if !st.scanning then (st, [])
  else if st.videoElem.isSome && ready && w != 0 && h != 0 then
    match code with
    | some s =>
        if jsTrim s != "" then
          let r := stopCamera { st with scanning := false }
          (r.1, r.2 ++ [Effect.handleQR s])
        else (st, [Effect.raf])
    | none => (st, [Effect.raf])
  else (st, [Effect.raf])

end ScriptJs

namespace Part002

/-- src/unnamed/part_002 lines 122-129: stopCamera.  Unlike the
script.js version, the video element srcObject is cleared outside the
held-stream branch, hence unconditionally. -/
def stopCamera (st : St) : St × List Effect :=
  let st1 : St := { st with scanning := false }
  let r : St × List Effect :=
    match st1.localStream with
    | some str => ({ st1 with localStream := none }, str.tracks.map Effect.stopTrack)
    | none => (st1, [])
  ({ r.1 with videoElem := r.1.videoElem.map (fun _ => none) }, r.2)

/-- src/unnamed/part_002 lines 61-64: updateCoins writes the
.coin-balance element when present; an undefined argument renders as a
non-numeric display. -/
def updateCoins (st : St) (coins : Option Int) : St × List Effect :=
  writeBalance st coins

/-- src/unnamed/part_002 lines 15-31: the identity-resolution block of
initAuth.  A Telegram user id is used when present; otherwise the
localStorage web_user_id is reused when truthy, or the freshly
generated randomId is persisted and used.  Returns userId, userName,
the (possibly updated) state and the storage-write effects. -/
def resolveId (st : St) (tg : Option Tg) (randomId : String) :
    String × String × St × List Effect :=
  let user : Option TgUser := tg.bind Tg.user
  if idTruthy user then
    match user with
    | some u =>
        (toString (u.id.getD 0),
         jsOrStr u.first_name (jsOrStr u.username "Telegram User"), st, [])
    | none => ("", "Telegram User", st, [])
  else
    match st.webUserId with
    | some s =>
        if s != "" then (s, "Web User", st, [])
        else (randomId, "Web User", { st with webUserId := some randomId },
          [Effect.setLocalItem "web_user_id" randomId])
    | none =>
        (randomId, "Web User", { st with webUserId := some randomId },
          [Effect.setLocalItem "web_user_id" randomId])

/-- src/unnamed/part_002 lines 8-52: bootstrap.  Resolves an identity
(Telegram, stored fallback, or freshly generated), then attempts the
exchange with it.  randomId stands for the random id the script would
generate. -/
def initAuth (st : St) (tg : Option Tg) (randomId : String) (fr : FetchResult) :
    St × List Effect :=
  let r0 := resolveId st tg randomId
  let userId := r0.1
  let userName := r0.2.1
  let st1 := r0.2.2.1
  let pre := r0.2.2.2
  let req : List Effect :=
    pre ++ [Effect.httpPost authUrl
      { telegram_id := some userId, name := some userName }]
  match fr with
  | FetchResult.netError =>
      (st1, req ++ [Effect.alert "Could not authenticate"])
  | FetchResult.reply _ _ _ none =>
      (st1, req ++ [Effect.alert "Could not authenticate"])
  | FetchResult.reply ok _ _ (some data) =>
      if !ok then (st1, req ++ [Effect.alert "Auth failed"])
      else
        let st2 : St := { st1 with authToken := some (jsString data.token) }
        let coins : Int := (data.user.bind UserInfo.coins).getD 0
        let r := updateCoins st2 (some coins)
        (r.1, req ++ r.2)

/-- src/unnamed/part_002 lines 160-183: the scan handler.  No trimming
and no emptiness check; the raw qrText is posted.  The body of the fetch
has no try/catch, so a rejected fetch propagates (the returned flag
records the throw); an unparsable body yields an empty object.  Only
res.ok is consulted: a 200 response takes the success path regardless of
its success field, writing newBalance verbatim; no path restarts the
camera. -/
def handleQRCode (st : St) (qrText : String) (fr : FetchResult) :
    St × List Effect × Bool :=
  if !(strTruthy st.authToken) then
    (st, [Effect.alert "Not authenticated yet. Reload the page."], false)
  else
    let req : List Effect :=
      [Effect.showLoading, Effect.httpPost scanUrl { qrText := some qrText }]
    match fr with
    | FetchResult.netError => (st, req, true)
    | FetchResult.reply ok _ _ json =>
        let data : RespBody := json.getD {}
        if !ok then
          (st, req ++ [Effect.hideLoading,
            Effect.alert (jsOrStr data.message "Scan failed")], false)
        else
          let r := updateCoins st data.newBalance
          (r.1, req ++ [Effect.hideLoading] ++ r.2 ++
            [Effect.alert ("✅ +" ++ jsShowInt data.addedCoins ++ " coins")], false)

/-- src/unnamed/part_002 lines 187-217: buyReward.  Short-circuits with
an alert when no token is held; otherwise posts the purchase, and on a
2xx response writes newBalance, opens the voucher link when present and
alerts success.  No try/catch: a rejected fetch propagates. -/
def buyReward (st : St) (rewardId : String) (title : String) (fr : FetchResult) :
    St × List Effect × Bool :=
  if !(strTruthy st.authToken) then
    (st, [Effect.alert "Not authenticated yet. Reload the page."], false)
  else
    let req : List Effect :=
      [Effect.showLoading, Effect.httpPost (buyUrl rewardId) {}]
    match fr with
    | FetchResult.netError => (st, req, true)
    | FetchResult.reply ok _ _ json =>
        let data : RespBody := json.getD {}
        if !ok then
          (st, req ++ [Effect.hideLoading,
            Effect.alert (jsOrStr data.message "Purchase failed")], false)
        else
          let r := updateCoins st data.newBalance
          let voucherUrl : Option String := data.voucher.bind VoucherInfo.redeemUrl
          let link : List Effect :=
            if strTruthy voucherUrl then [Effect.openLink (voucherUrl.getD "")] else []
          (r.1, req ++ [Effect.hideLoading] ++ r.2 ++ link ++
            [Effect.alert ("✅ Bought: " ++ title)], false)

/-- src/unnamed/part_002 lines 131-156: one step of the scan loop.  The
decoder result is accepted whenever code?.data is truthy, i.e. a
non-empty string — no trimming, so whitespace-only payloads pass. -/
def scanLoopStep (st : St) (ready : Bool) (w h : Nat) (code : Option String) :
    St × List Effect :=
  if !st.scanning then (st, [])
  else if st.videoElem.isSome && ready && w != 0 && h != 0 then
    match code with
    | some s =>
        if s != "" then
          let r := stopCamera { st with scanning := false }
          (r.1, r.2 ++ [Effect.handleQR s])
        else (st, [Effect.raf])
    | none => (st, [Effect.raf])
  else (st, [Effect.raf])

end Part002

namespace Part000A

/-- src/unnamed/part_000 lines 208-252 (first revision): the delegated
BUY-button click handler.  With no token it alerts and returns before
any network call; with a token it posts the purchase and handles the
response, where a plain data.voucher.redeemUrl access throws into the
catch when voucher is absent. -/
def buyClick (st : St) (rewardId : Option String) (fr : FetchResult) :
    St × List Effect :=
  if !(strTruthy st.authToken) then
    (st, [Effect.alert "Not authenticated yet."])
  else if !(strTruthy rewardId) then
    (st, [Effect.alert "Missing data-reward-id on BUY button."])
  else
    let rid : String := rewardId.getD ""
    let req : List Effect :=
      [Effect.showLoading, Effect.httpPost (buyUrl rid) {}]
    match fr with
    | FetchResult.netError =>
        (st, req ++ [Effect.hideLoading, Effect.alert "Network error buying reward."])
    | FetchResult.reply _ _ _ none =>
        (st, req ++ [Effect.hideLoading, Effect.alert "Network error buying reward."])
    | FetchResult.reply ok _ _ (some data) =>
        if !ok || !(boolTruthy data.success) then
          (st, req ++ [Effect.hideLoading,
            Effect.alert ("❌ " ++ jsOrStr data.message "Could not buy reward.")])
        else
          let r := writeBalance st data.newBalance
          match data.voucher with
          | some v =>
              (r.1, req ++ [Effect.hideLoading] ++ r.2 ++
                [Effect.alert ("✅ Voucher created!\n" ++ jsShowStr v.redeemUrl)])
          | none =>
              (r.1, req ++ [Effect.hideLoading] ++ r.2 ++
                [Effect.hideLoading, Effect.alert "Network error buying reward."])

end Part000A

namespace Part000B

/-- src/unnamed/part_000 lines 282-296 (second revision):
setCoinBalance writes the displayed balance, rendering a nullish value
as 0; the preferred #coin-count target is modelled by the same
.coin-balance slot. -/
def setCoinBalance (st : St) (v : Option Int) : St × List Effect :=
  match st.coinBalance with
  | some _ =>
      ({ st with coinBalance := some (some (v.getD 0)) },
        [Effect.setBalance (some (v.getD 0))])
  | none => (st, [])

/-- src/unnamed/part_000 lines 488-538 (second revision): redeemCode.
Trims the code and drops empty payloads; requires the token; posts
code+source; reads the response as raw text and parses it defensively.
On failure the alert detail is the message field, else the error field,
else the raw body, else the HTTP status — also when the body is not
valid JSON.  On success it writes newBalance when present and alerts
with attraction and voucher details. -/
def redeemCode (st : St) (code : String) (source : String) (fr : FetchResult) :
    St × List Effect :=
  let payload : String := jsTrim code
  if payload == "" then (st, [])
  else if !(strTruthy st.authToken) then
    (st, [Effect.alert "Not authenticated yet."])
  else
    let req : List Effect :=
      [Effect.showLoading,
       Effect.httpPost scanUrl { code := some payload, source := some source }]
    match fr with
    | FetchResult.netError =>
        (st, req ++ [Effect.hideLoading,
          Effect.alert "Network error talking to backend."])
    | FetchResult.reply ok status rawText json =>
        let data : Option RespBody := if rawText == "" then none else json
        if !ok || !(boolTruthy (data.bind RespBody.success)) then
          let fromBody : Option String :=
            match data with
            | none => none
            | some d => if strTruthy d.message then d.message else d.error
          let details : String :=
            if strTruthy fromBody then fromBody.getD ""
            else if rawText != "" then rawText
            else "HTTP " ++ toString status
          (st, req ++ [Effect.hideLoading,
            Effect.alert ("❌ Redeem failed\n\n" ++ details)])
        else
          let d : RespBody := data.getD {}
          let r : St × List Effect :=
            if d.newBalance.isSome then setCoinBalance st d.newBalance else (st, [])
          let aName : String :=
            if strTruthy (d.attraction.bind AttractionInfo.name) then
              "\nPlace: " ++ ((d.attraction.bind AttractionInfo.name).getD "")
            else ""
          let aDesc : String :=
            if strTruthy (d.attraction.bind AttractionInfo.description) then
              "\n\n" ++ ((d.attraction.bind AttractionInfo.description).getD "")
            else ""
          let vLink : String :=
            if strTruthy (d.voucher.bind VoucherInfo.redeemUrl) then
              "\n\nVoucher: " ++ ((d.voucher.bind VoucherInfo.redeemUrl).getD "")
            else ""
          let balShown : String :=
            match d.newBalance with
            | some n => toString n
            | none => "?"
          (r.1, req ++ [Effect.hideLoading] ++ r.2 ++
            [Effect.alert ("✅ Success!\n+" ++ toString (d.addedCoins.getD 0) ++
              " coins\nNew balance: " ++ balShown ++ aName ++ aDesc ++ vLink)])

/-- src/unnamed/part_000 lines 345-357 (second revision): the
start_param block at the end of a successful bootstrap.  With a truthy
start_param whose sessionStorage key is absent, the key is recorded and
only then redeemCode is invoked with source nfc; a present key skips the
redemption entirely.  keys is the set of sessionStorage keys. -/
def startParamGuard (keys : List String) (startParam : String) :
    List String × List Effect :=
  if startParam != "" then
    let key : String := "redeemed:" ++ startParam
    if keys.contains key then (keys, [])
    else (key :: keys,
      [Effect.setSessionItem key "1", Effect.redeemCall startParam "nfc"])
  else (keys, [])

end Part000B

namespace Part000C

/-- src/unnamed/part_000 lines 781-823 (third revision): bootstrap.
Requires the Telegram context and its initData; exchange failure leaves
the token unchanged with an alert; success stores String(data.token) and
the balance. -/
def initAuth (st : St) (tg : Option Tg) (fr : FetchResult) : St × List Effect :=
  match tg with
  | none => (st, [Effect.alert "Open this inside Telegram."])
  | some t =>
      if t.initData == "" then
        (st, [Effect.alert "Telegram initData missing."])
      else
        let req : List Effect :=
          [Effect.httpPost authUrl { initData := some t.initData }]
        match fr with
        | FetchResult.netError =>
            (st, req ++ [Effect.alert
              "Could not connect to backend (auth). Is Render backend running?"])
        | FetchResult.reply _ _ _ none =>
            (st, req ++ [Effect.alert
              "Could not connect to backend (auth). Is Render backend running?"])
        | FetchResult.reply ok _ _ (some data) =>
            if !ok then
              (st, req ++ [Effect.alert
                (jsOrStr data.error "Auth failed (backend rejected Telegram initData).")])
            else
              let st1 : St := { st with authToken := some (jsString data.token) }
              match data.user with
              | some usr =>
                  let r := writeBalance st1 usr.coins
                  (r.1, req ++ r.2)
              | none => (st1, req)

/-- src/unnamed/part_000 lines 832-836 (third revision): ensureAuth
returns true when a token is held, and otherwise runs initAuth and
reports whether a token resulted. -/
def ensureAuth (st : St) (tg : Option Tg) (fr : FetchResult) :
    St × List Effect × Bool :=
  if strTruthy st.authToken then (st, [], true)
  else
    let r := initAuth st tg fr
    (r.1, r.2, strTruthy r.1.authToken)

/-- src/unnamed/part_000 lines 972-1012 (third revision): buyReward.
First awaits ensureAuth — a missing token triggers a fresh bootstrap
attempt, and the purchase POST is issued whenever that attempt yields a
token; only when it fails does the handler alert and stop.  A plain
data.voucher.redeemUrl access throws into the catch when voucher is
absent. -/
def buyReward (st : St) (rewardId : String) (title : String) (tg : Option Tg)
    (authFr : FetchResult) (buyFr : FetchResult) : St × List Effect :=
  let ea := ensureAuth st tg authFr
  if !ea.2.2 then
    (ea.1, ea.2.1 ++ [Effect.alert "Not authenticated yet."])
  else
    let req : List Effect :=
      ea.2.1 ++ [Effect.showLoading, Effect.httpPost (buyUrl rewardId) {}]
    match buyFr with
    | FetchResult.netError =>
        (ea.1, req ++ [Effect.hideLoading, Effect.alert "Network error buying reward."])
    | FetchResult.reply _ _ _ none =>
        (ea.1, req ++ [Effect.hideLoading, Effect.alert "Network error buying reward."])
    | FetchResult.reply ok _ _ (some data) =>
        if !ok then
          (ea.1, req ++ [Effect.hideLoading,
            Effect.alert ("❌ " ++ jsOrStr data.message "Could not buy reward.")])
        else if boolTruthy data.success then
          let r := writeBalance ea.1 data.newBalance
          match data.voucher with
          | some v =>
              (r.1, req ++ [Effect.hideLoading] ++ r.2 ++
                [Effect.alert ("✅ Bought: " ++ title ++
                  "\nVoucher sent to your Telegram via bot.\n\nLink:\n" ++
                  jsShowStr v.redeemUrl)])
          | none =>
              (r.1, req ++ [Effect.hideLoading] ++ r.2 ++
                [Effect.hideLoading, Effect.alert "Network error buying reward."])
        else
          (ea.1, req ++ [Effect.hideLoading,
            Effect.alert ("❌ " ++ jsOrStr data.message "Could not buy reward.")])

end Part000C

namespace Part001

/-- src/unnamed/part_001 lines 57-80: bootstrap with a hardcoded demo
identity.  The token is taken from the response without checking res.ok;
a rejected fetch or unparsable body alerts. -/
def initAuth (st : St) (fr : FetchResult) : St × List Effect :=
  let req : List Effect :=
    [Effect.httpPost authUrl
      { telegram_id := some "6732377993", name := some "Demo User" }]
  match fr with
  | FetchResult.netError =>
      (st, req ++ [Effect.alert "Could not connect to backend (auth). Is Flask running?"])
  | FetchResult.reply _ _ _ none =>
      (st, req ++ [Effect.alert "Could not connect to backend (auth). Is Flask running?"])
  | FetchResult.reply _ _ _ (some data) =>
      let st1 : St := { st with authToken := data.token }
      match data.user with
      | some usr =>
          let r := writeBalance st1 usr.coins
          (r.1, req ++ r.2)
      | none => (st1, req)

/-- src/unnamed/part_001 lines 246-321: the scan handler.  Trims and
drops empty payloads; retries bootstrap when no token is held; posts the
trimmed payload; reads the response as text, an unparsable non-empty
body throwing into the catch (network alert).  For a non-2xx status the
alert detail is message, else error, else the HTTP status; a 2xx
response with falsy success does nothing beyond hiding the loader. -/
def handleQRCode (st : St) (decodedText : Option String) (authFr : FetchResult)
    (scanFr : FetchResult) : St × List Effect :=
  let payload : String := jsTrim (decodedText.getD "")
  if payload == "" then (st, [])
  else
    let boot : St × List Effect :=
      if strTruthy st.authToken then (st, []) else initAuth st authFr
    let st1 := boot.1
    let es1 := boot.2
    if !(strTruthy st1.authToken) then
      (st1, es1 ++ [Effect.alert "Not authenticated yet. Try reloading the page."])
    else
      let req : List Effect :=
        es1 ++ [Effect.showLoading, Effect.httpPost scanUrl { code := some payload }]
      match scanFr with
      | FetchResult.netError =>
          (st1, req ++ [Effect.hideLoading,
            Effect.alert "Network error talking to backend when scanning QR."])
      | FetchResult.reply ok status rawText json =>
          match (if rawText == "" then some ({} : RespBody) else json) with
          | none =>
              (st1, req ++ [Effect.hideLoading,
                Effect.alert "Network error talking to backend when scanning QR."])
          | some data =>
              if !ok then
                (st1, req ++ [Effect.hideLoading,
                  Effect.alert ("❌ " ++ jsOrStr data.message
                    (jsOrStr data.error ("HTTP " ++ toString status)))])
              else if boolTruthy data.success then
                let r := writeBalance st1 data.newBalance
                (r.1, req ++ [Effect.hideLoading, Effect.hideLoading] ++ r.2 ++
                  [Effect.alert ("✅ Coins redeemed!\n\n+" ++ jsShowInt data.addedCoins ++
                    " coins granted\n\n" ++
                    jsOrStr (data.attraction.bind AttractionInfo.title) "Sightseeing" ++
                    "\n\n" ++
                    jsOrStr (data.attraction.bind AttractionInfo.description) ""),
                   Effect.startCam])
              else
                (st1, req ++ [Effect.hideLoading, Effect.hideLoading])

end Part001

/-- Claim C8 prescription, following the spec words: the alert detail is
the response message field, else its error field, and when neither is
present (or truthy) the raw response body, else the HTTP status code. -/
def specErrorText (message err : Option String) (rawBody : String) (status : Nat) :
    String :=
  if strTruthy message then message.getD ""
  else if strTruthy err then err.getD ""
  else if rawBody != "" then rawBody
  else "HTTP " ++ toString status

/-- A submission outcome the scan flow counts as failure: fetch
rejection, a body that does not parse, a non-2xx status, or a parsed
body whose success field is falsy. -/
def scanFailure : FetchResult → Bool
  | FetchResult.netError => true
  | FetchResult.reply _ _ _ none => true
  | FetchResult.reply ok _ _ (some d) => !ok || !(boolTruthy d.success)

/-- A successful identity exchange: a 2xx reply with a parsed body. -/
def exchangeOk : FetchResult → Bool
  | FetchResult.reply true _ _ (some _) => true
  | _ => false

/-- Whether an effect is a POST to the redemption endpoint. -/
def isScanPost : Effect → Bool
  | Effect.httpPost u _ => u == scanUrl
  | _ => false

/-- Whether an effect is an invocation of redeemCode. -/
def isRedeemCall : Effect → Bool
  | Effect.redeemCall _ _ => true
  | _ => false

/-- A state with a stored bearer token, a balance element showing 100,
and an idle camera. -/
def stAuthed : St :=
  { authToken := some "tok-1", coinBalance := some (some 100), videoElem := some none }

/-- A freshly loaded, unauthenticated state: no token, no stored web
user id, balance element showing 0. -/
def stFresh : St := { coinBalance := some (some 0) }

/-- A state in the middle of scanning: flag set, a two-track stream held
and attached to the video element. -/
def stCam : St :=
  { scanning := true, localStream := some { tracks := [0, 1] },
    videoElem := some (some { tracks := [0, 1] }) }

/-- A successful redemption reply: 10 coins added, new balance 110. -/
def frScanOk : FetchResult :=
  FetchResult.reply true 200 ""
    (some { success := some true, addedCoins := some 10, newBalance := some 110 })

/-- An HTTP-200 redemption reply refusing a repeated code. -/
def frAlready : FetchResult :=
  FetchResult.reply true 200 ""
    (some { success := some false, message := some "Already scanned" })

/-- A 502 reply whose raw body is "oops" and whose parsed body carries
neither message nor error. -/
def frHttpFail : FetchResult := FetchResult.reply false 502 "oops" (some {})

/-- A successful identity exchange granting a token and 5 coins. -/
def frAuthTok : FetchResult :=
  FetchResult.reply true 200 ""
    (some { token := some "tok-2", user := some { coins := some 5 } })

/-- A successful purchase reply with a voucher link. -/
def frBuyOk : FetchResult :=
  FetchResult.reply true 200 ""
    (some { success := some true, newBalance := some 80,
            voucher := some { redeemUrl := some "https://v.example/r" } })

/-- A Telegram context carrying initData and a user. -/
def tgGood : Tg :=
  { initData := "query-id-1", user := some { id := some 42, first_name := some "Ana" } }

/-- Whether an effect is a user-visible alert. -/
def isAlert : Effect → Bool
  | Effect.alert _ => true
  | _ => false

/-- Whether a trace ends with a user-visible alert immediately followed
by a startCamera invocation. -/
def alertThenStart : List Effect → Bool
  | [Effect.alert _, Effect.startCam] => true
  | _ :: es => alertThenStart es
  | [] => false

/-- C5: every stopCamera invocation on a held stream stops all of its
tracks, clears the video element source and nulls the stream reference;
the tab switch applies exactly stopCamera for every non-scan view, and
the scan loop applies exactly stopCamera on a successful decode. -/
theorem C5_thm :
    (∀ (st : St) (str : MediaStream), st.localStream = some str →
      (ScriptJs.stopCamera st).1.scanning = false ∧
      (ScriptJs.stopCamera st).1.localStream = none ∧
      (st.videoElem.isSome → (ScriptJs.stopCamera st).1.videoElem = some none) ∧
      (ScriptJs.stopCamera st).2 = str.tracks.map Effect.stopTrack) ∧
    (∀ (v : String) (st : St), v ≠ "scan-view" →
      ScriptJs.setActiveTab v st =
        ((ScriptJs.stopCamera { st with activeView := some v }).1,
         (ScriptJs.stopCamera { st with activeView := some v }).2 ++
           (if v == "map-view" then [Effect.initMap] else []))) ∧
    (∀ (st : St) (w h : Nat) (s : String), st.scanning = true →
      st.videoElem.isSome → jsTrim s ≠ "" →
      ScriptJs.scanLoopStep st true (w + 1) (h + 1) (some s) =
        ((ScriptJs.stopCamera { st with scanning := false }).1,
         (ScriptJs.stopCamera { st with scanning := false }).2 ++ [Effect.handleQR s])) := by
  refine ⟨?_, ?_, ?_⟩
  · intro st str h
    cases st with
    | mk tok bal sc ls ve wu av =>
        cases h
        cases ve <;> simp [ScriptJs.stopCamera]
  · intro v st hv
    have hb : (v == "scan-view") = false := by
      simp [hv]
    simp [ScriptJs.setActiveTab, hb]
  · intro st w h s hsc hve hs
    have hb : (jsTrim s != "") = true := by
      simp [hs]
    simp [ScriptJs.scanLoopStep, hsc, hve, hb]

/-- C5 witness: concrete release of a two-track stream, a tab switch to
the rewards view and a successful decode step. -/
theorem C5_witness :
    ((ScriptJs.stopCamera stCam).1.scanning = false ∧
      (ScriptJs.stopCamera stCam).1.localStream = none ∧
      (stCam.videoElem.isSome → (ScriptJs.stopCamera stCam).1.videoElem = some none) ∧
      (ScriptJs.stopCamera stCam).2 = [Effect.stopTrack 0, Effect.stopTrack 1]) ∧
    ScriptJs.setActiveTab "rewards-view" stCam =
      ((ScriptJs.stopCamera { stCam with activeView := some "rewards-view" }).1,
       (ScriptJs.stopCamera { stCam with activeView := some "rewards-view" }).2 ++
         (if ("rewards-view" == "map-view") then [Effect.initMap] else [])) ∧
    ScriptJs.scanLoopStep stCam true 640 480 (some "CODE-7") =
      ((ScriptJs.stopCamera { stCam with scanning := false }).1,
       (ScriptJs.stopCamera { stCam with scanning := false }).2 ++
         [Effect.handleQR "CODE-7"]) :=
  ⟨C5_thm.1 stCam { tracks := [0, 1] } rfl,
   C5_thm.2.1 "rewards-view" stCam (by decide),
   C5_thm.2.2 stCam 639 479 "CODE-7" rfl rfl (by decide)⟩

/-- C9: stopCamera is idempotent and total in both the script.js and
the part_002 revisions: a call in any state leaves the released state
(scanning flag false, stream reference null), and a second consecutive
call changes nothing and emits no effects. -/
theorem C9_thm :
    (∀ st : St,
      (ScriptJs.stopCamera st).1.scanning = false ∧
      (ScriptJs.stopCamera st).1.localStream = none) ∧
    (∀ st : St,
      ScriptJs.stopCamera (ScriptJs.stopCamera st).1 = ((ScriptJs.stopCamera st).1, [])) ∧
    (∀ st : St,
      (Part002.stopCamera st).1.scanning = false ∧
      (Part002.stopCamera st).1.localStream = none) ∧
    (∀ st : St,
      Part002.stopCamera (Part002.stopCamera st).1 = ((Part002.stopCamera st).1, [])) := by
  refine ⟨fun st => ?_, fun st => ?_, fun st => ?_, fun st => ?_⟩ <;>
    cases st with
    | mk tok bal sc ls ve wu av =>
        cases ls <;> cases ve <;> simp [ScriptJs.stopCamera, Part002.stopCamera]

/-- C1: counterexample — the part_002 scan handler submits the
whitespace-only decoded payload " " verbatim (untrimmed) to the
redemption endpoint. -/
theorem C1_counterexample :
    jsTrim " " = "" ∧
    Effect.httpPost scanUrl { qrText := some " " } ∈
      (Part002.handleQRCode stAuthed " " frScanOk).2.1 := by
  decide

/-- C1 (amended): in the script.js revision an empty or whitespace-only
decoded payload is dropped before any effect — no POST, no state change
— and every POST the handler issues goes to the redemption endpoint and
carries the trimmed, non-empty payload; the part_002 revision does not
trim, its scan loop only refusing decoder results that are the empty
string. -/
theorem C1_thm :
    (∀ (st : St) (t : Option String) (fr : FetchResult),
      jsTrim (t.getD "") = "" → ScriptJs.handleQRCode st t fr = (st, [])) ∧
    (∀ (st : St) (t : Option String) (fr : FetchResult) (url : String) (b : ReqBody),
      Effect.httpPost url b ∈ (ScriptJs.handleQRCode st t fr).2 →
      url = scanUrl ∧ b.code = some (jsTrim (t.getD "")) ∧ jsTrim (t.getD "") ≠ "") ∧
    (∀ (st : St) (ready : Bool) (w h : Nat),
      Part002.scanLoopStep st ready w h (some "") =
        (if st.scanning then (st, [Effect.raf]) else (st, []))) := by
  refine ⟨?_, ?_, ?_⟩
  · intro st t fr h
    simp [ScriptJs.handleQRCode, h]
  · intro st t fr url b hmem
    by_cases hP : jsTrim (t.getD "") = ""
    · simp [ScriptJs.handleQRCode, hP] at hmem
    · by_cases htok : strTruthy st.authToken = true
      · rcases fr with _ | ⟨ok, status, raw, json⟩
        · simp [ScriptJs.handleQRCode, hP, htok] at hmem
          exact ⟨hmem.1, by simp [hmem.2], hP⟩
        · rcases json with _ | data
          · simp [ScriptJs.handleQRCode, hP, htok] at hmem
            exact ⟨hmem.1, by simp [hmem.2], hP⟩
          · by_cases hs : (!ok || !(boolTruthy data.success)) = true
            · simp [ScriptJs.handleQRCode, hP, htok, hs] at hmem
              exact ⟨hmem.1, by simp [hmem.2], hP⟩
            · simp only [Bool.not_eq_true] at hs
              cases hb : st.coinBalance with
              | none =>
                  simp [ScriptJs.handleQRCode, hP, htok, hs, writeBalance, hb] at hmem
                  exact ⟨hmem.1, by simp [hmem.2], hP⟩
              | some d =>
                  simp [ScriptJs.handleQRCode, hP, htok, hs, writeBalance, hb] at hmem
                  exact ⟨hmem.1, by simp [hmem.2], hP⟩
      · simp only [Bool.not_eq_true] at htok
        simp [ScriptJs.handleQRCode, hP, htok] at hmem
  · intro st ready w h
    cases hsc : st.scanning with
    | false => simp [Part002.scanLoopStep, hsc]
    | true =>
        by_cases hc : (st.videoElem.isSome && ready && (w != 0) && (h != 0)) = true
        · simp [Part002.scanLoopStep, hsc, hc]
        · simp only [Bool.not_eq_true] at hc
          simp [Part002.scanLoopStep, hsc, hc]

/-- C1 witness: a whitespace payload is dropped by the script.js
handler, and the POST issued for a padded payload carries the trimmed
text. -/
theorem C1_witness :
    ScriptJs.handleQRCode stAuthed (some "  ") frScanOk = (stAuthed, []) ∧
    (scanUrl = scanUrl ∧
      ({ code := some "CODE-7" } : ReqBody).code =
        some (jsTrim (((some " CODE-7 ") : Option String).getD "")) ∧
      jsTrim (((some " CODE-7 ") : Option String).getD "") ≠ "") :=
  ⟨C1_thm.1 stAuthed (some "  ") frScanOk (by decide),
   C1_thm.2.1 stAuthed (some " CODE-7 ") frScanOk scanUrl
     { code := some "CODE-7" } (by decide)⟩

/-- C2: counterexample — the part_002 handler, on an HTTP-200 reply with
success:false and message "Already scanned", takes the success path: it
overwrites the balance element (with the absent newBalance, rendered as
a non-numeric display) and alerts a generic success text, never the
message. -/
theorem C2_counterexample :
    (Part002.handleQRCode stAuthed "CODE-1" frAlready).1.coinBalance = some none ∧
    Effect.setBalance none ∈ (Part002.handleQRCode stAuthed "CODE-1" frAlready).2.1 ∧
    Effect.alert "Already scanned" ∉ (Part002.handleQRCode stAuthed "CODE-1" frAlready).2.1 ∧
    Effect.alert "✅ +undefined coins" ∈ (Part002.handleQRCode stAuthed "CODE-1" frAlready).2.1 := by
  decide

/-- C2 (amended): in the script.js revision an HTTP-200 reply with
success:false leaves the displayed balance untouched — no balance write
at all — and alerts the text built from the message field; the part_002
revision ignores the success field and takes the success path on any
2xx reply. -/
theorem C2_thm :
    ∀ (st : St) (t : Option String) (status : Nat) (raw : String) (data : RespBody),
      strTruthy st.authToken = true → jsTrim (t.getD "") ≠ "" →
      data.success = some false →
      (ScriptJs.handleQRCode st t (FetchResult.reply true status raw (some data))).1.coinBalance
          = st.coinBalance ∧
      (∀ v, Effect.setBalance v ∉
        (ScriptJs.handleQRCode st t (FetchResult.reply true status raw (some data))).2) ∧
      Effect.alert ("❌ " ++ jsOrStr data.message (jsOrStr data.error "Scan failed")) ∈
        (ScriptJs.handleQRCode st t (FetchResult.reply true status raw (some data))).2 := by
  intro st t status raw data htok hP hs
  have hcond : (!true || !(boolTruthy data.success)) = true := by
    simp [hs, boolTruthy]
  refine ⟨?_, ?_, ?_⟩ <;> simp [ScriptJs.handleQRCode, htok, hP, hcond, hs, boolTruthy]

/-- C2 witness: the script.js handler on the "Already scanned" reply
keeps the displayed balance, writes nothing and alerts the message. -/
theorem C2_witness :
    (ScriptJs.handleQRCode stAuthed (some "CODE-1")
        (FetchResult.reply true 200 ""
          (some { success := some false, message := some "Already scanned" }))).1.coinBalance
      = stAuthed.coinBalance ∧
    Effect.setBalance (some 110) ∉
      (ScriptJs.handleQRCode stAuthed (some "CODE-1")
        (FetchResult.reply true 200 ""
          (some { success := some false, message := some "Already scanned" }))).2 ∧
    Effect.alert ("❌ " ++ jsOrStr (some "Already scanned") (jsOrStr none "Scan failed")) ∈
      (ScriptJs.handleQRCode stAuthed (some "CODE-1")
        (FetchResult.reply true 200 ""
          (some { success := some false, message := some "Already scanned" }))).2 :=
  ⟨(C2_thm stAuthed (some "CODE-1") 200 ""
      { success := some false, message := some "Already scanned" }
      (by decide) (by decide) rfl).1,
   (C2_thm stAuthed (some "CODE-1") 200 ""
      { success := some false, message := some "Already scanned" }
      (by decide) (by decide) rfl).2.1 (some 110),
   (C2_thm stAuthed (some "CODE-1") 200 ""
      { success := some false, message := some "Already scanned" }
      (by decide) (by decide) rfl).2.2⟩

/-- C3: after a successful redemption reply carrying addedCoins k and
newBalance b, the displayed balance equals b verbatim, independently of
the previously displayed value and of k — in both the script.js and the
part_002 revisions. -/
theorem C3_thm :
    (∀ (st : St) (t : Option String) (status : Nat) (raw : String) (data : RespBody)
        (k b : Int),
      strTruthy st.authToken = true → jsTrim (t.getD "") ≠ "" →
      data.success = some true → data.addedCoins = some k → data.newBalance = some b →
      st.coinBalance.isSome = true →
      (ScriptJs.handleQRCode st t (FetchResult.reply true status raw (some data))).1.coinBalance
        = some (some b)) ∧
    (∀ (st : St) (q : String) (status : Nat) (raw : String) (data : RespBody) (b : Int),
      strTruthy st.authToken = true →
      data.success = some true → data.newBalance = some b →
      st.coinBalance.isSome = true →
      (Part002.handleQRCode st q (FetchResult.reply true status raw (some data))).1.coinBalance
        = some (some b)) := by
  constructor
  · intro st t status raw data k b htok hP hs hk hb hbal
    rcases Option.isSome_iff_exists.mp hbal with ⟨d, hd⟩
    have hcond : (!true || !(boolTruthy data.success)) = false := by
      simp [hs, boolTruthy]
    simp [ScriptJs.handleQRCode, htok, hP, hcond, hs, boolTruthy, writeBalance, hd, hb]
  · intro st q status raw data b htok hs hb hbal
    rcases Option.isSome_iff_exists.mp hbal with ⟨d, hd⟩
    simp [Part002.handleQRCode, Part002.updateCoins, htok, writeBalance, hd, hb]

/-- C3 witness: a successful reply with addedCoins 10 and newBalance 110
makes both handlers display 110. -/
theorem C3_witness :
    (ScriptJs.handleQRCode stAuthed (some "CODE-1")
        (FetchResult.reply true 200 ""
          (some { success := some true, addedCoins := some 10, newBalance := some 110 }))).1.coinBalance
      = some (some 110) ∧
    (Part002.handleQRCode stAuthed "CODE-1"
        (FetchResult.reply true 200 ""
          (some { success := some true, addedCoins := some 10, newBalance := some 110 }))).1.coinBalance
      = some (some 110) :=
  ⟨C3_thm.1 stAuthed (some "CODE-1") 200 ""
      { success := some true, addedCoins := some 10, newBalance := some 110 } 10 110
      (by decide) (by decide) rfl rfl rfl (by decide),
   C3_thm.2 stAuthed "CODE-1" 200 ""
      { success := some true, addedCoins := some 10, newBalance := some 110 } 110
      (by decide) rfl rfl (by decide)⟩

/-- Helper: the third-revision bootstrap only ever posts to the identity
endpoint. -/
theorem part000C_initAuth_posts (st : St) (tg : Option Tg) (fr : FetchResult)
    (url : String) (b : ReqBody) :
    Effect.httpPost url b ∈ (Part000C.initAuth st tg fr).2 → url = authUrl := by
  intro h
  rcases tg with _ | t
  · simp [Part000C.initAuth] at h
  · by_cases hi : t.initData = ""
    · simp [Part000C.initAuth, hi] at h
    · rcases fr with _ | ⟨ok, status, raw, json⟩
      · simp [Part000C.initAuth, hi] at h
        exact h.1
      · rcases json with _ | data
        · simp [Part000C.initAuth, hi] at h
          exact h.1
        · by_cases hok : ok = true
          · cases hu : data.user with
            | none =>
                simp [Part000C.initAuth, hi, hok, hu] at h
                exact h.1
            | some usr =>
                cases hb : st.coinBalance with
                | none =>
                    simp [Part000C.initAuth, hi, hok, hu, writeBalance, hb] at h
                    exact h.1
                | some d =>
                    simp [Part000C.initAuth, hi, hok, hu, writeBalance, hb] at h
                    exact h.1
          · simp only [Bool.not_eq_true] at hok
            simp [Part000C.initAuth, hi, hok] at h
            exact h.1

/-- C4: counterexample — in the part_000 third revision, a buyReward
call made while authToken is null does not short-circuit: ensureAuth
re-bootstraps, and when the exchange succeeds the purchase POST is
issued with no authentication error shown. -/
theorem C4_counterexample :
    stFresh.authToken = none ∧
    Effect.httpPost (buyUrl "7") {} ∈
      (Part000C.buyReward stFresh "7" "Coffee" (some tgGood) frAuthTok frBuyOk).2 ∧
    Effect.alert "Not authenticated yet." ∉
      (Part000C.buyReward stFresh "7" "Coffee" (some tgGood) frAuthTok frBuyOk).2 := by
  decide

/-- C4 (amended): the first-revision click handler and the part_002
buyReward short-circuit with an alert and no network call when no token
is held; the ensureAuth revision instead re-bootstraps first, and only
when that fails does it alert and confine its requests to the identity
endpoint — the purchase POST is never issued while the session remains
unauthenticated. -/
theorem C4_thm :
    (∀ (st : St) (rid : Option String) (fr : FetchResult),
      strTruthy st.authToken = false →
      Part000A.buyClick st rid fr = (st, [Effect.alert "Not authenticated yet."])) ∧
    (∀ (st : St) (rid title : String) (fr : FetchResult),
      strTruthy st.authToken = false →
      Part002.buyReward st rid title fr =
        (st, [Effect.alert "Not authenticated yet. Reload the page."], false)) ∧
    (∀ (st : St) (rid title : String) (tg : Option Tg) (afr bfr : FetchResult),
      strTruthy st.authToken = false →
      strTruthy (Part000C.initAuth st tg afr).1.authToken = false →
      (Effect.alert "Not authenticated yet." ∈
          (Part000C.buyReward st rid title tg afr bfr).2 ∧
        ∀ (url : String) (b : ReqBody),
          Effect.httpPost url b ∈ (Part000C.buyReward st rid title tg afr bfr).2 →
            url = authUrl)) := by
  refine ⟨?_, ?_, ?_⟩
  · intro st rid fr htok
    simp [Part000A.buyClick, htok]
  · intro st rid title fr htok
    simp [Part002.buyReward, htok]
  · intro st rid title tg afr bfr htok hfail
    have hbr : Part000C.buyReward st rid title tg afr bfr =
        ((Part000C.initAuth st tg afr).1,
          (Part000C.initAuth st tg afr).2 ++ [Effect.alert "Not authenticated yet."]) := by
      simp [Part000C.buyReward, Part000C.ensureAuth, htok, hfail]
    rw [hbr]
    constructor
    · simp
    · intro url b hmem
      simp only [List.mem_append, List.mem_singleton] at hmem
      rcases hmem with hmem | hmem
      · exact part000C_initAuth_posts st tg afr url b hmem
      · cases hmem

/-- C4 witness: concrete unauthenticated purchase attempts in each
revision. -/
theorem C4_witness :
    Part000A.buyClick stFresh (some "7") frBuyOk =
      (stFresh, [Effect.alert "Not authenticated yet."]) ∧
    Part002.buyReward stFresh "7" "Coffee" frBuyOk =
      (stFresh, [Effect.alert "Not authenticated yet. Reload the page."], false) ∧
    Effect.alert "Not authenticated yet." ∈
      (Part000C.buyReward stFresh "7" "Coffee" (some tgGood)
        FetchResult.netError frBuyOk).2 ∧
    authUrl = authUrl :=
  ⟨C4_thm.1 stFresh (some "7") frBuyOk (by decide),
   C4_thm.2.1 stFresh "7" "Coffee" frBuyOk (by decide),
   (C4_thm.2.2 stFresh "7" "Coffee" (some tgGood) FetchResult.netError frBuyOk
      (by decide) (by decide)).1,
   (C4_thm.2.2 stFresh "7" "Coffee" (some tgGood) FetchResult.netError frBuyOk
      (by decide) (by decide)).2 authUrl { initData := some "query-id-1" } (by decide)⟩

/-- Helper: identity resolution never touches the stored token. -/
theorem part002_resolveId_token (st : St) (tg : Option Tg) (randomId : String) :
    (Part002.resolveId st tg randomId).2.2.1.authToken = st.authToken := by
  by_cases hid : idTruthy (tg.bind Tg.user) = true
  · rcases hu : tg.bind Tg.user with _ | u
    · rw [hu] at hid
      simp [idTruthy] at hid
    · rw [hu] at hid
      simp [Part002.resolveId, hu, hid]
  · simp only [Bool.not_eq_true] at hid
    rcases hw : st.webUserId with _ | s
    · simp [Part002.resolveId, hid, hw]
    · by_cases hs : s = "" <;> simp [Part002.resolveId, hid, hw, hs]

/-- Helper: identity resolution performs no HTTP request. -/
theorem part002_resolveId_noPost (st : St) (tg : Option Tg) (randomId : String)
    (url : String) (b : ReqBody) :
    Effect.httpPost url b ∉ (Part002.resolveId st tg randomId).2.2.2 := by
  by_cases hid : idTruthy (tg.bind Tg.user) = true
  · rcases hu : tg.bind Tg.user with _ | u
    · rw [hu] at hid
      simp [idTruthy] at hid
    · rw [hu] at hid
      simp [Part002.resolveId, hu, hid]
  · simp only [Bool.not_eq_true] at hid
    rcases hw : st.webUserId with _ | s
    · simp [Part002.resolveId, hid, hw]
    · by_cases hs : s = "" <;> simp [Part002.resolveId, hid, hw, hs]

/-- Helper: after a failed identity exchange, the script.js bootstrap
leaves the token unchanged and shows an alert. -/
theorem scriptJs_initAuth_after (st : St) (tg : Option Tg) (fr : FetchResult)
    (hex : exchangeOk fr = false) :
    (ScriptJs.initAuth st tg fr).1.authToken = st.authToken ∧
    (ScriptJs.initAuth st tg fr).2.any (fun e => isAlert e) = true := by
  by_cases ha : (tg.map Tg.initData).getD "" = ""
  · simp [ScriptJs.initAuth, ha, isAlert]
  · by_cases hb : idTruthy (tg.bind Tg.user) = true
    · rcases hu : tg.bind Tg.user with _ | u
      · rw [hu] at hb
        simp [idTruthy] at hb
      · rw [hu] at hb
        rcases fr with _ | ⟨ok, status, raw, json⟩
        · simp [ScriptJs.initAuth, ha, hb, hu, isAlert]
        · rcases json with _ | data
          · simp [ScriptJs.initAuth, ha, hb, hu, isAlert]
          · cases ok with
            | false => simp [ScriptJs.initAuth, ha, hb, hu, isAlert]
            | true => simp [exchangeOk] at hex
    · simp only [Bool.not_eq_true] at hb
      simp [ScriptJs.initAuth, hb, isAlert]

/-- Helper: after a failed identity exchange, the part_002 bootstrap
leaves the token unchanged and shows an alert. -/
theorem part002_initAuth_after (st : St) (tg : Option Tg) (randomId : String)
    (fr : FetchResult) (hex : exchangeOk fr = false) :
    (Part002.initAuth st tg randomId fr).1.authToken = st.authToken ∧
    (Part002.initAuth st tg randomId fr).2.any (fun e => isAlert e) = true := by
  have htok := part002_resolveId_token st tg randomId
  rcases hres : Part002.resolveId st tg randomId with ⟨uid, uname, st1, pre⟩
  rw [hres] at htok
  replace htok : st1.authToken = st.authToken := htok
  rcases fr with _ | ⟨ok, status, raw, json⟩
  · simp [Part002.initAuth, hres, isAlert, htok]
  · rcases json with _ | data
    · simp [Part002.initAuth, hres, isAlert, htok]
    · cases ok with
      | false => simp [Part002.initAuth, hres, isAlert, htok]
      | true => simp [exchangeOk] at hex

/-- Helper: the script.js bootstrap only ever posts to the identity
endpoint. -/
theorem scriptJs_initAuth_posts (st : St) (tg : Option Tg) (fr : FetchResult)
    (url : String) (b : ReqBody) :
    Effect.httpPost url b ∈ (ScriptJs.initAuth st tg fr).2 → url = authUrl := by
  intro h
  by_cases ha : (tg.map Tg.initData).getD "" = ""
  · simp [ScriptJs.initAuth, ha] at h
  · by_cases hid : idTruthy (tg.bind Tg.user) = true
    · rcases hu : tg.bind Tg.user with _ | u
      · rw [hu] at hid
        simp [idTruthy] at hid
      · rw [hu] at hid
        rcases fr with _ | ⟨ok, status, raw, json⟩
        · simp [ScriptJs.initAuth, ha, hid, hu] at h
          exact h.1
        · rcases json with _ | data
          · simp [ScriptJs.initAuth, ha, hid, hu] at h
            exact h.1
          · cases ok with
            | false =>
                simp [ScriptJs.initAuth, ha, hid, hu] at h
                exact h.1
            | true =>
                cases hd : data.user with
                | none =>
                    simp [ScriptJs.initAuth, ha, hid, hu, hd] at h
                    exact h.1
                | some usr =>
                    cases hb : st.coinBalance with
                    | none =>
                        simp [ScriptJs.initAuth, ha, hid, hu, hd, writeBalance, hb] at h
                        exact h.1
                    | some dd =>
                        simp [ScriptJs.initAuth, ha, hid, hu, hd, writeBalance, hb] at h
                        exact h.1
    · simp only [Bool.not_eq_true] at hid
      simp [ScriptJs.initAuth, hid] at h

/-- Helper: the part_002 bootstrap only ever posts to the identity
endpoint. -/
theorem part002_initAuth_posts (st : St) (tg : Option Tg) (randomId : String)
    (fr : FetchResult) (url : String) (b : ReqBody) :
    Effect.httpPost url b ∈ (Part002.initAuth st tg randomId fr).2 → url = authUrl := by
  intro h
  have hnp := part002_resolveId_noPost st tg randomId url b
  rcases hres : Part002.resolveId st tg randomId with ⟨uid, uname, st1, pre⟩
  rw [hres] at hnp
  rcases fr with _ | ⟨ok, status, raw, json⟩
  · simp [Part002.initAuth, hres] at h
    rcases h with h | h
    · exact absurd h hnp
    · exact h.1
  · rcases json with _ | data
    · simp [Part002.initAuth, hres] at h
      rcases h with h | h
      · exact absurd h hnp
      · exact h.1
    · cases ok with
      | false =>
          simp [Part002.initAuth, hres] at h
          rcases h with h | h
          · exact absurd h hnp
          · exact h.1
      | true =>
          cases hb : st1.coinBalance with
          | none =>
              simp [Part002.initAuth, hres, Part002.updateCoins, writeBalance, hb] at h
              rcases h with h | h
              · exact absurd h hnp
              · exact h.1
          | some dd =>
              simp [Part002.initAuth, hres, Part002.updateCoins, writeBalance, hb] at h
              rcases h with h | h
              · exact absurd h hnp
              · exact h.1

/-- C6: counterexample — with no Telegram context and no stored
fallback id, the part_002 bootstrap does not stay unauthenticated: it
generates and persists a synthetic id, attempts the exchange, and on
success stores the returned token. -/
theorem C6_counterexample :
    stFresh.authToken = none ∧ stFresh.webUserId = none ∧
    (Part002.initAuth stFresh none "5551112222" frAuthTok).1.authToken = some "tok-2" ∧
    Effect.setLocalItem "web_user_id" "5551112222" ∈
      (Part002.initAuth stFresh none "5551112222" frAuthTok).2 ∧
    Effect.httpPost authUrl { telegram_id := some "5551112222", name := some "Web User" } ∈
      (Part002.initAuth stFresh none "5551112222" frAuthTok).2 := by
  decide

/-- C6 (amended): in the script.js revision a missing Telegram identity
makes bootstrap return with only an alert — the session stays
unauthenticated and nothing is fetched; in both revisions any failed
identity exchange leaves the token unchanged with a user-visible alert,
and bootstrap itself only ever posts to the identity endpoint (never a
scan or purchase request); the part_002 revision, however, synthesises
and persists a fallback id and proceeds with the exchange. -/
theorem C6_thm :
    (∀ (st : St) (tg : Option Tg) (fr : FetchResult),
      ((tg.map Tg.initData).getD "" = "" ∨ idTruthy (tg.bind Tg.user) = false) →
      ScriptJs.initAuth st tg fr = (st, [Effect.alert ScriptJs.noLoginAlert])) ∧
    (∀ (st : St) (tg : Option Tg) (fr : FetchResult),
      exchangeOk fr = false →
      (ScriptJs.initAuth st tg fr).1.authToken = st.authToken ∧
      (ScriptJs.initAuth st tg fr).2.any (fun e => isAlert e) = true) ∧
    (∀ (st : St) (tg : Option Tg) (randomId : String) (fr : FetchResult),
      exchangeOk fr = false →
      (Part002.initAuth st tg randomId fr).1.authToken = st.authToken ∧
      (Part002.initAuth st tg randomId fr).2.any (fun e => isAlert e) = true) ∧
    (∀ (st : St) (tg : Option Tg) (fr : FetchResult) (url : String) (b : ReqBody),
      Effect.httpPost url b ∈ (ScriptJs.initAuth st tg fr).2 → url = authUrl) ∧
    (∀ (st : St) (tg : Option Tg) (randomId : String) (fr : FetchResult)
        (url : String) (b : ReqBody),
      Effect.httpPost url b ∈ (Part002.initAuth st tg randomId fr).2 → url = authUrl) := by
  refine ⟨?_, ?_, ?_, ?_, ?_⟩
  · intro st tg fr h
    rcases h with h | h
    · simp [ScriptJs.initAuth, h]
    · simp [ScriptJs.initAuth, h]
  · exact scriptJs_initAuth_after
  · exact part002_initAuth_after
  · exact scriptJs_initAuth_posts
  · exact part002_initAuth_posts

/-- C6 witness: concrete missing-identity and failed-exchange
bootstraps. -/
theorem C6_witness :
    ScriptJs.initAuth stFresh none frAuthTok = (stFresh, [Effect.alert ScriptJs.noLoginAlert]) ∧
    ((ScriptJs.initAuth stFresh (some tgGood) FetchResult.netError).1.authToken
        = stFresh.authToken ∧
      (ScriptJs.initAuth stFresh (some tgGood) FetchResult.netError).2.any
        (fun e => isAlert e) = true) ∧
    ((Part002.initAuth stFresh none "5551112222" FetchResult.netError).1.authToken
        = stFresh.authToken ∧
      (Part002.initAuth stFresh none "5551112222" FetchResult.netError).2.any
        (fun e => isAlert e) = true) ∧
    authUrl = authUrl :=
  ⟨C6_thm.1 stFresh none frAuthTok (Or.inl (by decide)),
   C6_thm.2.1 stFresh (some tgGood) FetchResult.netError (by decide),
   C6_thm.2.2.1 stFresh none "5551112222" FetchResult.netError (by decide),
   C6_thm.2.2.2.1 stFresh (some tgGood) frAuthTok authUrl
     { initData := some "query-id-1", telegram_id := some "42", name := some "Ana" }
     (by decide)⟩

/-- C7: counterexample — the part_002 handler, on an HTTP failure,
only alerts: no startCamera invocation appears in its trace, so the
client stays idle instead of resuming capture. -/
theorem C7_counterexample :
    Effect.startCam ∉ (Part002.handleQRCode stAuthed "CODE-1" frHttpFail).2.1 ∧
    Effect.alert "Scan failed" ∈ (Part002.handleQRCode stAuthed "CODE-1" frHttpFail).2.1 := by
  decide

/-- C7 (amended): in the script.js revision every failed submission —
fetch rejection, unparsable body, non-2xx status or success:false —
ends its trace with the failure alert immediately followed by a
startCamera invocation, resuming capture; the part_002 revision never
restarts the camera after a submission. -/
theorem C7_thm :
    ∀ (st : St) (t : Option String) (fr : FetchResult),
      strTruthy st.authToken = true → jsTrim (t.getD "") ≠ "" →
      scanFailure fr = true →
      alertThenStart (ScriptJs.handleQRCode st t fr).2 = true := by
  intro st t fr htok hP hfail
  rcases fr with _ | ⟨ok, status, raw, json⟩
  · simp [ScriptJs.handleQRCode, htok, hP, alertThenStart]
  · rcases json with _ | data
    · simp [ScriptJs.handleQRCode, htok, hP, alertThenStart]
    · have hcond : (!ok || !(boolTruthy data.success)) = true := by
        simpa [scanFailure] using hfail
      simp [ScriptJs.handleQRCode, htok, hP, hcond, alertThenStart]

/-- C7 witness: a concrete 502 failure resumes the camera in the
script.js revision. -/
theorem C7_witness :
    alertThenStart (ScriptJs.handleQRCode stAuthed (some "CODE-1") frHttpFail).2 = true :=
  C7_thm stAuthed (some "CODE-1") frHttpFail (by decide) (by decide) (by decide)

/-- Helper: truthiness of a missing string. -/
theorem strTruthy_none : strTruthy none = false := rfl

/-- Helper: truthiness of a present string. -/
theorem strTruthy_some (s : String) : strTruthy (some s) = (s != "") := rfl

/-- Helper: truthiness of a missing boolean. -/
theorem boolTruthy_none : boolTruthy none = false := rfl

/-- Helper: truthiness of a present boolean. -/
theorem boolTruthy_some (b : Bool) : boolTruthy (some b) = b := rfl

/-- C8: counterexample — for a 502 error whose body carries neither
message nor error, the script.js scan handler alerts a fixed "Scan
failed" text: the only alert of the trace is not built from the raw
body or the HTTP status as the claim prescribes. -/
theorem C8_counterexample :
    ((ScriptJs.handleQRCode stAuthed (some "CODE-1") frHttpFail).2.filter
        (fun e => isAlert e)) = [Effect.alert "❌ Scan failed"] ∧
    specErrorText none none "oops" 502 = "oops" ∧
    "❌ Scan failed" ≠ "❌ oops" ∧
    Effect.alert ("❌ " ++ specErrorText none none "oops" 502) ∉
      (ScriptJs.handleQRCode stAuthed (some "CODE-1") frHttpFail).2 := by
  decide

/-- C8 (amended): only the redeemCode revision implements the full
fallback chain: its failure alert detail is the message field, else the
error field, else the raw body, else the HTTP status — also for bodies
that are not valid JSON.  The script.js handler falls back to a fixed
"Scan failed" text, the part_001 handler to "HTTP status", and both
replace an unparsable body with a generic network-error alert. -/
theorem C8_thm :
    (∀ (st : St) (code source : String) (ok : Bool) (status : Nat) (raw : String)
        (json : Option RespBody),
      strTruthy st.authToken = true → jsTrim code ≠ "" →
      (!ok || !(boolTruthy
        (((if raw == "" then (none : Option RespBody) else json)).bind RespBody.success))) = true →
      Effect.alert ("❌ Redeem failed\n\n" ++
        specErrorText
          (((if raw == "" then (none : Option RespBody) else json)).bind RespBody.message)
          (((if raw == "" then (none : Option RespBody) else json)).bind RespBody.error)
          raw status) ∈
        (Part000B.redeemCode st code source (FetchResult.reply ok status raw json)).2) ∧
    (∀ (st : St) (t : Option String) (ok : Bool) (status : Nat) (raw : String)
        (data : RespBody),
      strTruthy st.authToken = true → jsTrim (t.getD "") ≠ "" →
      (!ok || !(boolTruthy data.success)) = true →
      Effect.alert ("❌ " ++ jsOrStr data.message (jsOrStr data.error "Scan failed")) ∈
        (ScriptJs.handleQRCode st t (FetchResult.reply ok status raw (some data))).2) ∧
    (∀ (st : St) (t : Option String) (ok : Bool) (status : Nat) (raw : String),
      strTruthy st.authToken = true → jsTrim (t.getD "") ≠ "" →
      Effect.alert "Network error talking to backend when scanning QR." ∈
        (ScriptJs.handleQRCode st t (FetchResult.reply ok status raw none)).2) ∧
    (∀ (st : St) (t : Option String) (afr : FetchResult) (status : Nat) (raw : String)
        (d : RespBody),
      strTruthy st.authToken = true → jsTrim (t.getD "") ≠ "" → raw ≠ "" →
      Effect.alert ("❌ " ++ jsOrStr d.message (jsOrStr d.error ("HTTP " ++ toString status))) ∈
        (Part001.handleQRCode st t afr (FetchResult.reply false status raw (some d))).2) ∧
    (∀ (st : St) (t : Option String) (afr : FetchResult) (ok : Bool) (status : Nat)
        (raw : String),
      strTruthy st.authToken = true → jsTrim (t.getD "") ≠ "" → raw ≠ "" →
      Effect.alert "Network error talking to backend when scanning QR." ∈
        (Part001.handleQRCode st t afr (FetchResult.reply ok status raw none)).2) := by
  refine ⟨?_, ?_, ?_, ?_, ?_⟩
  · intro st code source ok status raw json htok hP hfail
    by_cases hraw : raw = ""
    · subst hraw
      simp [Part000B.redeemCode, htok, hP, specErrorText, strTruthy_none, boolTruthy_none]
    · rcases json with _ | d
      · simp [Part000B.redeemCode, htok, hP, hraw, specErrorText, strTruthy_none,
          boolTruthy_none]
      · replace hfail : ok = false ∨ boolTruthy d.success = false := by
          simpa [hraw] using hfail
        rcases hdm : d.message with _ | m
        · rcases hde : d.error with _ | e
          · simp [Part000B.redeemCode, htok, hP, hraw, hdm, hde, hfail, specErrorText,
              strTruthy_none]
          · by_cases hee : e = ""
            · subst hee
              simp [Part000B.redeemCode, htok, hP, hraw, hdm, hde, hfail, specErrorText,
                strTruthy_none, strTruthy_some]
            · simp [Part000B.redeemCode, htok, hP, hraw, hdm, hde, hee, hfail, specErrorText,
                strTruthy_none, strTruthy_some]
        · by_cases hmm : m = ""
          · subst hmm
            rcases hde : d.error with _ | e
            · simp [Part000B.redeemCode, htok, hP, hraw, hdm, hde, hfail, specErrorText,
                strTruthy_none, strTruthy_some]
            · by_cases hee : e = ""
              · subst hee
                simp [Part000B.redeemCode, htok, hP, hraw, hdm, hde, hfail, specErrorText,
                  strTruthy_none, strTruthy_some]
              · simp [Part000B.redeemCode, htok, hP, hraw, hdm, hde, hee, hfail, specErrorText,
                  strTruthy_none, strTruthy_some]
          · simp [Part000B.redeemCode, htok, hP, hraw, hdm, hmm, hfail, specErrorText,
              strTruthy_none, strTruthy_some]
  · intro st t ok status raw data htok hP hfail
    simp [ScriptJs.handleQRCode, htok, hP, hfail]
  · intro st t ok status raw htok hP
    simp [ScriptJs.handleQRCode, htok, hP]
  · intro st t afr status raw d htok hP hraw
    simp [Part001.handleQRCode, htok, hP, hraw]
  · intro st t afr ok status raw htok hP hraw
    simp [Part001.handleQRCode, htok, hP, hraw]

/-- C8 witness: the 502 "oops" failure through each handler. -/
theorem C8_witness :
    Effect.alert ("❌ Redeem failed\n\n" ++
        specErrorText
          (((if "oops" == "" then (none : Option RespBody) else some {})).bind RespBody.message)
          (((if "oops" == "" then (none : Option RespBody) else some {})).bind RespBody.error)
          "oops" 502) ∈
      (Part000B.redeemCode stAuthed "CODE-1" "qr"
        (FetchResult.reply false 502 "oops" (some {}))).2 ∧
    Effect.alert ("❌ " ++ jsOrStr none (jsOrStr none "Scan failed")) ∈
      (ScriptJs.handleQRCode stAuthed (some "CODE-1")
        (FetchResult.reply false 502 "oops" (some {}))).2 ∧
    Effect.alert "Network error talking to backend when scanning QR." ∈
      (ScriptJs.handleQRCode stAuthed (some "CODE-1")
        (FetchResult.reply true 200 "not json" none)).2 ∧
    Effect.alert ("❌ " ++ jsOrStr none (jsOrStr none ("HTTP " ++ toString 502))) ∈
      (Part001.handleQRCode stAuthed (some "CODE-1") frAuthTok
        (FetchResult.reply false 502 "oops" (some {}))).2 ∧
    Effect.alert "Network error talking to backend when scanning QR." ∈
      (Part001.handleQRCode stAuthed (some "CODE-1") frAuthTok
        (FetchResult.reply true 200 "not json" none)).2 :=
  ⟨C8_thm.1 stAuthed "CODE-1" "qr" false 502 "oops" (some {})
      (by decide) (by decide) (by decide),
   C8_thm.2.1 stAuthed (some "CODE-1") false 502 "oops" {}
      (by decide) (by decide) (by decide),
   C8_thm.2.2.1 stAuthed (some "CODE-1") true 200 "not json"
      (by decide) (by decide),
   C8_thm.2.2.2.1 stAuthed (some "CODE-1") frAuthTok 502 "oops" {}
      (by decide) (by decide) (by decide),
   C8_thm.2.2.2.2 stAuthed (some "CODE-1") frAuthTok true 200 "not json"
      (by decide) (by decide) (by decide)⟩

/-- Helper: one redeemCode call posts to the redemption endpoint at
most once, whatever the inputs and outcome. -/
theorem part000B_redeemCode_posts (st : St) (code source : String) (fr : FetchResult) :
    ((Part000B.redeemCode st code source fr).2.countP (fun e => isScanPost e)) ≤ 1 := by
  by_cases hP : jsTrim code = ""
  · simp [Part000B.redeemCode, hP]
  · by_cases htok : strTruthy st.authToken = true
    · rcases fr with _ | ⟨ok, status, raw, json⟩
      · simp [Part000B.redeemCode, hP, htok, isScanPost]
      · rcases json with _ | d
        · simp [Part000B.redeemCode, hP, htok, isScanPost, boolTruthy_none,
            List.countP_cons]
        · by_cases hraw : raw = ""
          · subst hraw
            simp [Part000B.redeemCode, hP, htok, isScanPost, boolTruthy_none,
              List.countP_cons]
          · by_cases hs : boolTruthy d.success = true
            · cases ok with
              | true =>
                  by_cases hnb : d.newBalance.isSome = true
                  · cases hb : st.coinBalance with
                    | none =>
                        simp [Part000B.redeemCode, hP, htok, hraw, hs, hnb,
                          Part000B.setCoinBalance, hb, isScanPost, List.countP_cons,
                          List.countP_append]
                    | some dd =>
                        simp [Part000B.redeemCode, hP, htok, hraw, hs, hnb,
                          Part000B.setCoinBalance, hb, isScanPost, List.countP_cons,
                          List.countP_append]
                  · simp only [Bool.not_eq_true] at hnb
                    simp [Part000B.redeemCode, hP, htok, hraw, hs, hnb, isScanPost,
                      List.countP_cons, List.countP_append]
              | false =>
                  simp [Part000B.redeemCode, hP, htok, hraw, hs, isScanPost,
                    List.countP_cons]
            · simp only [Bool.not_eq_true] at hs
              simp [Part000B.redeemCode, hP, htok, hraw, hs, isScanPost,
                List.countP_cons]
    · simp only [Bool.not_eq_true] at htok
      simp [Part000B.redeemCode, hP, htok, isScanPost, List.countP_cons,
        List.countP_nil]

/-- C10: the start_param guard redeems a deep-link code at most once
per browser session: the sessionStorage key is recorded strictly before
redeemCode is invoked, a present key suppresses the call entirely, two
consecutive bootstraps invoke it at most once, and one redeemCode call
posts the redemption request at most once. -/
theorem C10_thm :
    ∀ (keys : List String) (sp : String), sp ≠ "" →
      (((Part000B.startParamGuard keys sp).2 ++
          (Part000B.startParamGuard (Part000B.startParamGuard keys sp).1 sp).2).countP
            (fun e => isRedeemCall e)) ≤ 1 ∧
      (("redeemed:" ++ sp) ∈ keys → Part000B.startParamGuard keys sp = (keys, [])) ∧
      (("redeemed:" ++ sp) ∉ keys →
        (Part000B.startParamGuard keys sp).2 =
          [Effect.setSessionItem ("redeemed:" ++ sp) "1", Effect.redeemCall sp "nfc"]) ∧
      (∀ (st : St) (fr : FetchResult),
        ((Part000B.redeemCode st sp "nfc" fr).2.countP (fun e => isScanPost e)) ≤ 1) := by
  intro keys sp hsp
  by_cases hk : ("redeemed:" ++ sp) ∈ keys
  · refine ⟨?_, ?_, ?_, ?_⟩
    · simp [Part000B.startParamGuard, hsp, hk, isRedeemCall]
    · intro _
      simp [Part000B.startParamGuard, hsp, hk]
    · intro habs
      exact absurd hk habs
    · intro st fr
      exact part000B_redeemCode_posts st sp "nfc" fr
  · refine ⟨?_, ?_, ?_, ?_⟩
    · simp [Part000B.startParamGuard, hsp, hk, isRedeemCall, List.countP_cons,
        List.countP_append, List.countP_nil]
    · intro habs
      exact absurd habs hk
    · intro _
      simp [Part000B.startParamGuard, hsp, hk]
    · intro st fr
      exact part000B_redeemCode_posts st sp "nfc" fr

/-- C10 witness: a concrete deep-link code through a fresh and a
pre-marked session. -/
theorem C10_witness :
    (((Part000B.startParamGuard [] "ATTR-1").2 ++
        (Part000B.startParamGuard (Part000B.startParamGuard [] "ATTR-1").1 "ATTR-1").2).countP
          (fun e => isRedeemCall e)) ≤ 1 ∧
    Part000B.startParamGuard ["redeemed:ATTR-1"] "ATTR-1" = (["redeemed:ATTR-1"], []) ∧
    (Part000B.startParamGuard [] "ATTR-1").2 =
      [Effect.setSessionItem "redeemed:ATTR-1" "1", Effect.redeemCall "ATTR-1" "nfc"] ∧
    ((Part000B.redeemCode stAuthed "ATTR-1" "nfc" frScanOk).2.countP
      (fun e => isScanPost e)) ≤ 1 :=
  ⟨(C10_thm [] "ATTR-1" (by decide)).1,
   (C10_thm ["redeemed:ATTR-1"] "ATTR-1" (by decide)).2.1 (by decide),
   (C10_thm [] "ATTR-1" (by decide)).2.2.1 (by decide),
   (C10_thm [] "ATTR-1" (by decide)).2.2.2 stAuthed frScanOk⟩
